import Mathlib

/-!
Verification of the DeReK incident-intake core: a shallow embedding of
`src/core/text_to_ticket.py` (extraction pipeline and record builder) and
`src/core/post_to_n8n.py` (webhook delivery client and validator).

Python values flowing through the system are JSON-like dynamic values, modelled
by `JValue`.  Python `dict`s are modelled as association lists preserving
insertion order; lookup finds the first matching key.  Python `float`s are
modelled as rationals (all amounts handled here are small exact decimals).
Exceptions are modelled with `Except PyExc`; a function that Python cannot
raise from is given a plain return type.  Network effects (the HTTP POST of
the delivery client) are modelled by an oracle `net : JValue → HttpOutcome`
mapping the posted payload to the observed outcome of the request.
`datetime.now().strftime` values are threaded as an explicit `today : String`
parameter.
-/

/-- A JSON-like dynamic Python value. -/
inductive JValue where
  | jnull
  | jbool (b : Bool)
  | jint (n : Int)
  | jfloat (q : Rat)
  | jstr (s : String)
  | jarr (xs : List JValue)
  | jobj (fields : List (String × JValue))
deriving Repr

/-- Python exceptions relevant to the modelled code paths. -/
inductive PyExc where
  | keyError (k : String)
  | valueError
  | typeError
deriving Repr, DecidableEq

/-- Membership test `k in d` on a Python dict. -/
def dict_contains (d : List (String × JValue)) (k : String) : Bool :=
  d.any (fun p => p.1 == k)

/-- Models `d.get(k)`: returns the value, or `None` (modelled `jnull`) when absent. -/
def dict_get (d : List (String × JValue)) (k : String) : JValue :=
  (d.lookup k).getD JValue.jnull

/-- Subscript `d[k]`: raises `KeyError` when the key is absent. -/
def dict_getitem (d : List (String × JValue)) (k : String) : Except PyExc JValue :=
  match d.lookup k with
  | some v => .ok v
  | none => .error (.keyError k)

/-- Python truthiness of a value. -/
def py_truthy : JValue → Bool
  | .jnull => false
  | .jbool b => b
  | .jint n => n != 0
  | .jfloat q => q != 0
  | .jstr s => s != ""
  | .jarr xs => !xs.isEmpty
  | .jobj fs => !fs.isEmpty

/-- Python `x or y`: `x` when truthy, else `y`. -/
def py_or (x y : JValue) : JValue :=
  if py_truthy x then x else y

def digitVal (c : Char) : Nat := c.toNat - 48

def natOfDigits (cs : List Char) : Nat :=
  cs.foldl (fun a c => a * 10 + digitVal c) 0

/-- Models the Python builtin `float()` on strings: optional surrounding
whitespace, optional sign, then a plain decimal literal (digits, optionally a
point and digits, at least one digit overall).  Exponent, infinity, NaN and
underscore forms accepted by Python are not used anywhere in this development
and are left out of the model. -/
def py_float_of_string (s : String) : Option Rat :=
  let cs := ((s.toList.dropWhile Char.isWhitespace).reverse.dropWhile Char.isWhitespace).reverse
  let signed : Bool × List Char :=
    match cs with
    | '-' :: rest => (true, rest)
    | '+' :: rest => (false, rest)
    | _ => (false, cs)
  let neg := signed.1
  let intPart := signed.2.takeWhile Char.isDigit
  let rest := signed.2.dropWhile Char.isDigit
  match rest with
  | [] =>
    if intPart.isEmpty then none
    else some (cond neg (-(natOfDigits intPart : Rat)) (natOfDigits intPart))
  | '.' :: rest2 =>
    let fracPart := rest2.takeWhile Char.isDigit
    let rest3 := rest2.dropWhile Char.isDigit
    if rest3.isEmpty && !(intPart.isEmpty && fracPart.isEmpty) then
      let q : Rat :=
        (natOfDigits intPart : Rat) + (natOfDigits fracPart : Rat) / ((10 : Rat) ^ fracPart.length)
      some (cond neg (-q) q)
    else none
  | _ => none

/-- Models the Python builtin `float()`: numbers and booleans convert
(`bool` is an `int` subclass), strings are parsed (raising `ValueError` on
failure), any other value raises `TypeError`. -/
def py_float : JValue → Except PyExc Rat
  | .jbool b => .ok (cond b 1 0)
  | .jint n => .ok (n : Rat)
  | .jfloat q => .ok q
  | .jstr s =>
    match py_float_of_string s with
    | some q => .ok q
    | none => .error .valueError
  | _ => .error .typeError

def isLeapYear (y : Nat) : Bool :=
  (y % 4 == 0 && y % 100 != 0) || y % 400 == 0

def daysInMonth (y m : Nat) : Nat :=
  if m == 2 then (if isLeapYear y then 29 else 28)
  else if m == 4 || m == 6 || m == 9 || m == 11 then 30
  else 31

/-- Read one or two leading ASCII digits (greedily) from a character list. -/
def parse12 : List Char → Option (Nat × List Char)
  | a :: b :: rest =>
    if a.isDigit then
      if b.isDigit then some (digitVal a * 10 + digitVal b, rest)
      else some (digitVal a, b :: rest)
    else none
  | [a] => if a.isDigit then some (digitVal a, []) else none
  | [] => none

/-- Parse a string of shape `YYYY-M[M]-D[D]` into year, month, day numerals,
consuming the whole string; no range checks yet. -/
def parseDateYMD (s : String) : Option (Nat × Nat × Nat) :=
  match s.toList with
  | y1 :: y2 :: y3 :: y4 :: '-' :: rest =>
    if y1.isDigit && y2.isDigit && y3.isDigit && y4.isDigit then
      let y := ((digitVal y1 * 10 + digitVal y2) * 10 + digitVal y3) * 10 + digitVal y4
      match parse12 rest with
      | some (m, '-' :: rest2) =>
        match parse12 rest2 with
        | some (d, []) => some (y, m, d)
        | _ => none
      | _ => none
    else none
  | _ => none

/-- Models `datetime.strptime(s, "%Y-%m-%d")` succeeding: four year digits, one
or two month digits, one or two day digits separated by hyphens, the whole
string consumed, and the numerals forming a real calendar date (month 1..12,
day within the month's length, year at least `datetime.MINYEAR = 1`). -/
def strptime_ymd_ok (s : String) : Bool :=
  match parseDateYMD s with
  | some (y, m, d) =>
    1 ≤ y && 1 ≤ m && m ≤ 12 && 1 ≤ d && d ≤ daysInMonth y m
  | none => false

/-- Models `datetime.strptime(v, "%Y-%m-%d")` as called by the validator:
a non-string argument raises `TypeError`; a string that does not match the
pattern raises `ValueError`. -/
def strptime_check (v : JValue) : Except PyExc Unit :=
  match v with
  | .jstr s => if strptime_ymd_ok s then .ok () else .error .valueError
  | _ => .error .typeError

/-- Embeds `create_incident_payload` from `text_to_ticket.py` lines 57-77 (duplicated
verbatim in `post_to_n8n.py` lines 170-205): builds the canonical seven-field
record, substituting `today` (the current date formatted `%Y-%m-%d`) when
`incident_date` is `None`. -/
def create_incident_payload (policy_id customer_name incident_type description location
    estimated_damage incident_date : JValue) (today : String) : JValue :=
  let d :=
    match incident_date with
    | .jnull => JValue.jstr today
    | v => v
  JValue.jobj
    [("policyId", policy_id),
     ("customerName", customer_name),
     ("incidentDate", d),
     ("incidentType", incident_type),
     ("description", description),
     ("location", location),
     ("estimatedDamage", estimated_damage)]

/-- Embeds `text_to_incident_ticket` from `text_to_ticket.py` lines 80-96, taken from
the point after the extractor's network call: `extracted` is the JSON object
the extractor produced.  If it carries an `error` key it is returned unchanged;
otherwise each field is defaulted with `or` and the damage estimate passes
through `float()`, which can raise (hence the `Except`). -/
def text_to_incident_ticket (extracted : List (String × JValue)) (today : String) :
    Except PyExc JValue :=
  if dict_contains extracted "error" then .ok (JValue.jobj extracted)
  else do
    let ed ← py_float (py_or (dict_get extracted "estimatedDamage") (JValue.jfloat 0))
    pure (create_incident_payload
      (py_or (dict_get extracted "policyId") (JValue.jstr "UNKNOWN"))
      (py_or (dict_get extracted "customerName") (JValue.jstr "UNKNOWN"))
      (py_or (dict_get extracted "incidentType") (JValue.jstr "unspecified"))
      (py_or (dict_get extracted "description") (JValue.jstr ""))
      (py_or (dict_get extracted "location") (JValue.jstr "unspecified"))
      (JValue.jfloat ed)
      (dict_get extracted "incidentDate")
      today)

/-- The required-field list of `validate_incident_data`
(`post_to_n8n.py` lines 147-150), in source order. -/
def required_fields : List String :=
  ["policyId", "customerName", "incidentDate",
   "incidentType", "description", "location", "estimatedDamage"]

/-- Models `isinstance(v, (int, float))`: booleans qualify because Python `bool` is a
subclass of `int`. -/
def is_number : JValue → Bool
  | .jint _ => true
  | .jfloat _ => true
  | .jbool _ => true
  | _ => false

/-- Embeds `N8NWebhookClient.validate_incident_data` (`post_to_n8n.py` lines 136-167):
first missing required field (in source order) fails the record; then the date
field must satisfy `strptime(·, "%Y-%m-%d")` — only a `ValueError` from it is
caught, so the `TypeError` raised on a non-string date propagates; then the
damage field must be numeric. -/
def validate_incident_data (incident_data : List (String × JValue)) :
    Except PyExc (Bool × Option String) :=
  match required_fields.find? (fun f => !dict_contains incident_data f) with
  | some f => .ok (false, some ("Missing required field: " ++ f))
  | none => do
    let datev ← dict_getitem incident_data "incidentDate"
    match strptime_check datev with
    | .error .valueError => pure (false, some "incidentDate must be in YYYY-MM-DD format")
    | .error e => .error e
    | .ok _ => do
      let dmg ← dict_getitem incident_data "estimatedDamage"
      if is_number dmg then pure (true, none)
      else pure (false, some "estimatedDamage must be a number")

/-- Dict membership as a state-threaded operation: a read, so the dict
component of the result is the dict it was given. -/
def dict_contains_st (d : List (String × JValue)) (k : String) :
    Bool × List (String × JValue) :=
  (dict_contains d k, d)

/-- Dict subscript as a state-threaded operation: a read, so the dict
component of the result is the dict it was given. -/
def dict_getitem_st (d : List (String × JValue)) (k : String) :
    Except PyExc JValue × List (String × JValue) :=
  (dict_getitem d k, d)

/-- Variant of `validate_incident_data` with the Python dict threaded explicitly through
every operation the source performs on it (seven membership tests, unrolled
from the loop over `required_fields`, and two subscript reads), so that the
dict the caller holds after the call is the second component of the result. -/
def validate_incident_data_st (incident_data : List (String × JValue)) :
    Except PyExc (Bool × Option String) × List (String × JValue) :=
  let c1 := dict_contains_st incident_data "policyId"
  if !c1.1 then (.ok (false, some "Missing required field: policyId"), c1.2) else
  let c2 := dict_contains_st c1.2 "customerName"
  if !c2.1 then (.ok (false, some "Missing required field: customerName"), c2.2) else
  let c3 := dict_contains_st c2.2 "incidentDate"
  if !c3.1 then (.ok (false, some "Missing required field: incidentDate"), c3.2) else
  let c4 := dict_contains_st c3.2 "incidentType"
  if !c4.1 then (.ok (false, some "Missing required field: incidentType"), c4.2) else
  let c5 := dict_contains_st c4.2 "description"
  if !c5.1 then (.ok (false, some "Missing required field: description"), c5.2) else
  let c6 := dict_contains_st c5.2 "location"
  if !c6.1 then (.ok (false, some "Missing required field: location"), c6.2) else
  let c7 := dict_contains_st c6.2 "estimatedDamage"
  if !c7.1 then (.ok (false, some "Missing required field: estimatedDamage"), c7.2) else
  let rd := dict_getitem_st c7.2 "incidentDate"
  match rd.1 with
  | .error e => (.error e, rd.2)
  | .ok datev =>
    match strptime_check datev with
    | .error .valueError =>
      (.ok (false, some "incidentDate must be in YYYY-MM-DD format"), rd.2)
    | .error e => (.error e, rd.2)
    | .ok _ =>
      let rg := dict_getitem_st rd.2 "estimatedDamage"
      match rg.1 with
      | .error e => (.error e, rg.2)
      | .ok dmg =>
        if is_number dmg then (.ok (true, none), rg.2)
        else (.ok (false, some "estimatedDamage must be a number"), rg.2)

/-- An HTTP response as observed through the `requests` library: the status
code, the result of `response.json()` (`some` parsed value when the body is
valid JSON, `none` when parsing would raise), the raw `response.text`, and the
`reason`/`url` attributes used to word `raise_for_status` errors. -/
structure Response where
  status_code : Nat
  jsonResult : Option JValue
  text : String
  reason : String
  url : String

/-- Outcome of one `requests.post` call: a response arrived, the request timed
out (`requests.exceptions.Timeout`), or some other `RequestException` occurred
whose `str(e)` rendering is `details`. -/
inductive HttpOutcome where
  | response (r : Response)
  | timeout
  | requestError (details : String)

/-- The `requests` exceptions post_incident can observe.  `Timeout` and
`HTTPError` are both subclasses of `RequestException`; the string argument is
the `str(e)` rendering used in the error message. -/
inductive ReqExc where
  | timeoutExc
  | httpError (msg : String)
  | connectionError (msg : String)

def reqExcStr : ReqExc → String
  | .timeoutExc => ""
  | .httpError m => m
  | .connectionError m => m

/-- Models `Response.raise_for_status` of the `requests` library: `some` error
message exactly when the status code is in 400..599, worded as the library
words `HTTPError`. -/
def http_error_msg (r : Response) : Option String :=
  if 400 ≤ r.status_code ∧ r.status_code < 500 then
    some (toString r.status_code ++ " Client Error: " ++ r.reason ++ " for url: " ++ r.url)
  else if 500 ≤ r.status_code ∧ r.status_code < 600 then
    some (toString r.status_code ++ " Server Error: " ++ r.reason ++ " for url: " ++ r.url)
  else none

/-- The flat JSON payload `post_incident` builds from its seven arguments
(`post_to_n8n.py` lines 57-66). -/
def n8n_payload (policy_id customer_name incident_date incident_type description location
    estimated_damage : JValue) : JValue :=
  JValue.jobj
    [("policyId", policy_id),
     ("customerName", customer_name),
     ("incidentDate", incident_date),
     ("incidentType", incident_type),
     ("description", description),
     ("location", location),
     ("estimatedDamage", estimated_damage)]

/-- The `try` block of `post_incident` (`post_to_n8n.py` lines 71-97): perform
the POST (modelled by the oracle `net` applied to the payload), raise for bad
status, and build the success dictionary, with `response.json()` falling back
to `response.text`. -/
def post_incident_attempt (net : JValue → HttpOutcome) (payload : JValue) :
    Except ReqExc JValue :=
  match net payload with
  | .timeout => .error .timeoutExc
  | .requestError details => .error (.connectionError details)
  | .response r =>
    match http_error_msg r with
    | some m => .error (.httpError m)
    | none =>
      .ok (JValue.jobj
        [("success", JValue.jbool true),
         ("status_code", JValue.jint r.status_code),
         ("response", match r.jsonResult with
           | some j => j
           | none => JValue.jstr r.text)])

/-- Embeds `N8NWebhookClient.post_incident` (`post_to_n8n.py` lines 29-113): the
`try` block's outcome is caught by the `except Timeout` clause first, then by
the `except RequestException` clause, so the function always returns a
dictionary and never raises. -/
def post_incident (timeout : Int) (net : JValue → HttpOutcome)
    (policy_id customer_name incident_date incident_type description location
    estimated_damage : JValue) : JValue :=
  let payload := n8n_payload policy_id customer_name incident_date incident_type
    description location estimated_damage
  match post_incident_attempt net payload with
  | .ok v => v
  | .error .timeoutExc =>
    JValue.jobj
      [("success", JValue.jbool false),
       ("error", JValue.jstr ("Request timed out after " ++ toString timeout ++ " seconds"))]
  | .error e =>
    JValue.jobj
      [("success", JValue.jbool false),
       ("error", JValue.jstr ("Request failed: " ++ reqExcStr e))]

/-- Embeds `N8NWebhookClient.post_incident_from_dict` (`post_to_n8n.py` lines
115-134): seven subscript reads in keyword-argument order, each able to raise
`KeyError`, then the discrete-argument call. -/
def post_incident_from_dict (timeout : Int) (net : JValue → HttpOutcome)
    (incident_data : List (String × JValue)) : Except PyExc JValue := do
  let p ← dict_getitem incident_data "policyId"
  let c ← dict_getitem incident_data "customerName"
  let dte ← dict_getitem incident_data "incidentDate"
  let ty ← dict_getitem incident_data "incidentType"
  let de ← dict_getitem incident_data "description"
  let lo ← dict_getitem incident_data "location"
  let ed ← dict_getitem incident_data "estimatedDamage"
  pure (post_incident timeout net p c dte ty de lo ed)

/-! ### Helper lemmas -/

lemma lookup_eq_none_of_not_contains (d : List (String × JValue)) (k : String)
    (h : dict_contains d k = false) : d.lookup k = none := by
  induction d with
  | nil => rfl
  | cons p rest ih =>
    simp [dict_contains, List.any] at h
    have hrest : dict_contains rest k = false := by
      simp [dict_contains, List.any]
      exact h.2
    have hk : (k == p.1) = false := by
      simp [beq_iff_eq]
      exact fun hkk => h.1 hkk.symm
    simp [List.lookup, hk, ih hrest]

lemma getitem_of_not_contains (d : List (String × JValue)) (k : String)
    (h : dict_contains d k = false) : dict_getitem d k = .error (.keyError k) := by
  simp [dict_getitem, lookup_eq_none_of_not_contains d k h]

lemma getitem_of_contains (d : List (String × JValue)) (k : String)
    (h : dict_contains d k = true) : ∃ v, dict_getitem d k = .ok v := by
  induction d with
  | nil => simp [dict_contains] at h
  | cons p rest ih =>
    by_cases hk : p.1 = k
    · exact ⟨p.2, by simp [dict_getitem, List.lookup, hk]⟩
    · have h' : dict_contains rest k = true := by
        simp [dict_contains, List.any] at h
        rcases h with h | h
        · exact absurd h hk
        · simp [dict_contains, h]
      obtain ⟨v, hv⟩ := ih h'
      refine ⟨v, ?_⟩
      simp [dict_getitem, List.lookup] at hv ⊢
      have : (k == p.1) = false := by
        simp [beq_iff_eq]
        exact fun hkk => hk hkk.symm
      simp [this, hv]

lemma dict_get_eq_of_getitem (d : List (String × JValue)) (k : String) (v : JValue)
    (h : dict_getitem d k = .ok v) : dict_get d k = v := by
  unfold dict_getitem at h
  unfold dict_get
  cases hl : d.lookup k with
  | none => simp [hl] at h
  | some w => simp [hl] at h ⊢; exact h

lemma validate_incident_data_missing (d : List (String × JValue)) (f : String)
    (h : required_fields.find? (fun g => !dict_contains d g) = some f) :
    validate_incident_data d = .ok (false, some ("Missing required field: " ++ f)) := by
  simp [validate_incident_data, h]

/-! ### Claim theorems -/

/-- C4: if the extractor's result carries an `error` key, the pipeline
returns that exact object unchanged — an identity short-circuit that never
reaches the record builder. -/
theorem text_to_incident_ticket_error_short_circuit
    (extracted : List (String × JValue)) (today : String)
    (h : dict_contains extracted "error" = true) :
    text_to_incident_ticket extracted today = .ok (JValue.jobj extracted) := by
  simp [text_to_incident_ticket, h]

/-- Witness for C4. -/
theorem text_to_incident_ticket_error_short_circuit_witness :
    text_to_incident_ticket
      [("error", JValue.jstr "Invalid JSON returned"), ("raw", JValue.jstr "gibberish")]
      "2024-01-01" =
    .ok (JValue.jobj
      [("error", JValue.jstr "Invalid JSON returned"), ("raw", JValue.jstr "gibberish")]) :=
  text_to_incident_ticket_error_short_circuit
    [("error", JValue.jstr "Invalid JSON returned"), ("raw", JValue.jstr "gibberish")]
    "2024-01-01" rfl

/-- C5: `create_incident_payload` keeps a supplied (non-null) `incident_date`
and substitutes the current date when it is null, while the six other fields
appear unchanged under their camel-case keys. -/
theorem create_incident_payload_fields
    (policy_id customer_name incident_type description location estimated_damage
      incident_date : JValue) (today : String) :
    (incident_date ≠ JValue.jnull →
      create_incident_payload policy_id customer_name incident_type description location
        estimated_damage incident_date today =
      JValue.jobj
        [("policyId", policy_id), ("customerName", customer_name),
         ("incidentDate", incident_date), ("incidentType", incident_type),
         ("description", description), ("location", location),
         ("estimatedDamage", estimated_damage)])
    ∧ (incident_date = JValue.jnull →
      create_incident_payload policy_id customer_name incident_type description location
        estimated_damage incident_date today =
      JValue.jobj
        [("policyId", policy_id), ("customerName", customer_name),
         ("incidentDate", JValue.jstr today), ("incidentType", incident_type),
         ("description", description), ("location", location),
         ("estimatedDamage", estimated_damage)]) := by
  constructor
  · intro h
    cases incident_date
    · exact absurd rfl h
    all_goals rfl
  · intro h
    subst h
    rfl

/-- Witness for C5. -/
theorem create_incident_payload_fields_witness :
    create_incident_payload (JValue.jstr "PL-4829") (JValue.jstr "Sarah Thompson")
      (JValue.jstr "Auto Accident") (JValue.jstr "rear-ended") (JValue.jstr "Denver")
      (JValue.jfloat 1500) (JValue.jstr "2024-03-15") "2024-01-01" =
    JValue.jobj
      [("policyId", JValue.jstr "PL-4829"), ("customerName", JValue.jstr "Sarah Thompson"),
       ("incidentDate", JValue.jstr "2024-03-15"), ("incidentType", JValue.jstr "Auto Accident"),
       ("description", JValue.jstr "rear-ended"), ("location", JValue.jstr "Denver"),
       ("estimatedDamage", JValue.jfloat 1500)] :=
  (create_incident_payload_fields (JValue.jstr "PL-4829") (JValue.jstr "Sarah Thompson")
    (JValue.jstr "Auto Accident") (JValue.jstr "rear-ended") (JValue.jstr "Denver")
    (JValue.jfloat 1500) (JValue.jstr "2024-03-15") "2024-01-01").1
    (fun h => JValue.noConfusion h)

/-- C6: a record missing one of the seven required keys fails validation with
`Missing required field: <key>` naming the first missing key in the source's
fixed order, and no later check runs (the result is this failure whatever the
other fields hold). -/
theorem validate_incident_data_missing_field (d : List (String × JValue)) (f : String)
    (h : required_fields.find? (fun g => !dict_contains d g) = some f) :
    validate_incident_data d = .ok (false, some ("Missing required field: " ++ f)) :=
  validate_incident_data_missing d f h

/-- Witness for C6: a record with only `policyId` and a malformed date is
rejected for its first missing key, `customerName`, with no date check run. -/
theorem validate_incident_data_missing_field_witness :
    validate_incident_data
      [("policyId", JValue.jstr "POL-001"), ("incidentDate", JValue.jint 13132024)] =
    .ok (false, some ("Missing required field: " ++ "customerName")) :=
  validate_incident_data_missing_field
    [("policyId", JValue.jstr "POL-001"), ("incidentDate", JValue.jint 13132024)]
    "customerName" rfl

lemma find_missing_none (d : List (String × JValue))
    (hall : ∀ f ∈ required_fields, dict_contains d f = true) :
    required_fields.find? (fun g => !dict_contains d g) = none := by
  rw [List.find?_eq_none]
  intro x hx
  simp [hall x hx]

/-- C2 counterexample: a record holding all seven required keys whose
`incidentDate` is not a string makes `validate_incident_data` raise
(`strptime` raises `TypeError`, which the `except ValueError` clause does not
catch) instead of returning a pass/fail pair. -/
theorem validate_incident_data_raises_on_nonstring_date :
    validate_incident_data
      [("policyId", JValue.jstr "POL-001"), ("customerName", JValue.jstr "Sarah Thompson"),
       ("incidentDate", JValue.jint 20240315), ("incidentType", JValue.jstr "Auto Accident"),
       ("description", JValue.jstr ""), ("location", JValue.jstr "Denver"),
       ("estimatedDamage", JValue.jint 1500)] = .error .typeError := rfl

/-- C2 (amended to string-valued dates): for a record holding all seven
required keys whose `incidentDate` is a string, `validate_incident_data`
returns a pass/fail pair rather than raising, and returns the date-format
failure exactly when the string does not parse as `%Y-%m-%d`; concretely it
rejects `"13-13-2024"` and accepts `"2024-03-15"`. -/
theorem validate_incident_data_date_check (d : List (String × JValue)) (s : String)
    (hall : ∀ f ∈ required_fields, dict_contains d f = true)
    (hdate : dict_getitem d "incidentDate" = .ok (JValue.jstr s)) :
    (∃ r, validate_incident_data d = .ok r)
    ∧ (strptime_ymd_ok s = false →
        validate_incident_data d = .ok (false, some "incidentDate must be in YYYY-MM-DD format"))
    ∧ validate_incident_data
        [("policyId", JValue.jstr "POL-001"), ("customerName", JValue.jstr "Sarah Thompson"),
         ("incidentDate", JValue.jstr "13-13-2024"), ("incidentType", JValue.jstr "Auto Accident"),
         ("description", JValue.jstr ""), ("location", JValue.jstr "Denver"),
         ("estimatedDamage", JValue.jfloat 1500)] =
        .ok (false, some "incidentDate must be in YYYY-MM-DD format")
    ∧ validate_incident_data
        [("policyId", JValue.jstr "POL-001"), ("customerName", JValue.jstr "Sarah Thompson"),
         ("incidentDate", JValue.jstr "2024-03-15"), ("incidentType", JValue.jstr "Auto Accident"),
         ("description", JValue.jstr ""), ("location", JValue.jstr "Denver"),
         ("estimatedDamage", JValue.jfloat 1500)] = .ok (true, none) := by
  have hfind := find_missing_none d hall
  obtain ⟨v, hv⟩ := getitem_of_contains d "estimatedDamage" (hall _ (by simp [required_fields]))
  refine ⟨?_, ?_, rfl, rfl⟩
  · cases hs : strptime_ymd_ok s with
    | false =>
      exact ⟨(false, some "incidentDate must be in YYYY-MM-DD format"),
        by simp [validate_incident_data, hfind, hdate, strptime_check, hs, Bind.bind, Except.bind, Pure.pure, Except.pure]⟩
    | true =>
      cases hn : is_number v with
      | false =>
        exact ⟨(false, some "estimatedDamage must be a number"),
          by simp [validate_incident_data, hfind, hdate, strptime_check, hs, hv, hn, Bind.bind, Except.bind, Pure.pure, Except.pure]⟩
      | true =>
        exact ⟨(true, none),
          by simp [validate_incident_data, hfind, hdate, strptime_check, hs, hv, hn, Bind.bind, Except.bind, Pure.pure, Except.pure]⟩
  · intro hs
    simp [validate_incident_data, hfind, hdate, strptime_check, hs, Bind.bind, Except.bind, Pure.pure, Except.pure]

/-- Witness for C2: the amended date-format theorem applied to a concrete
seven-key record with the malformed string date `"13-13-2024"`. -/
theorem validate_incident_data_date_check_witness :
    validate_incident_data
      [("policyId", JValue.jstr "POL-001"), ("customerName", JValue.jstr "Sarah Thompson"),
       ("incidentDate", JValue.jstr "13-13-2024"), ("incidentType", JValue.jstr "Auto Accident"),
       ("description", JValue.jstr ""), ("location", JValue.jstr "Denver"),
       ("estimatedDamage", JValue.jfloat 1500)] =
    .ok (false, some "incidentDate must be in YYYY-MM-DD format") :=
  (validate_incident_data_date_check
    [("policyId", JValue.jstr "POL-001"), ("customerName", JValue.jstr "Sarah Thompson"),
     ("incidentDate", JValue.jstr "13-13-2024"), ("incidentType", JValue.jstr "Auto Accident"),
     ("description", JValue.jstr ""), ("location", JValue.jstr "Denver"),
     ("estimatedDamage", JValue.jfloat 1500)] "13-13-2024"
    (by decide) rfl).2.1 rfl

/-- C7: on a record with all seven keys and a well-formed string date, the
validator rejects a non-numeric `estimatedDamage` with the type-error message
and accepts a numeric one; concretely it rejects the string `"1500"` and
accepts `1500` and `1500.0`, returning `(True, None)`. -/
theorem validate_incident_data_damage_check (d : List (String × JValue)) (s : String) (v : JValue)
    (hall : ∀ f ∈ required_fields, dict_contains d f = true)
    (hdate : dict_getitem d "incidentDate" = .ok (JValue.jstr s))
    (hs : strptime_ymd_ok s = true)
    (hdmg : dict_getitem d "estimatedDamage" = .ok v) :
    (is_number v = false →
      validate_incident_data d = .ok (false, some "estimatedDamage must be a number"))
    ∧ (is_number v = true → validate_incident_data d = .ok (true, none))
    ∧ validate_incident_data
        [("policyId", JValue.jstr "POL-001"), ("customerName", JValue.jstr "Sarah Thompson"),
         ("incidentDate", JValue.jstr "2024-03-15"), ("incidentType", JValue.jstr "Auto Accident"),
         ("description", JValue.jstr ""), ("location", JValue.jstr "Denver"),
         ("estimatedDamage", JValue.jstr "1500")] =
        .ok (false, some "estimatedDamage must be a number")
    ∧ validate_incident_data
        [("policyId", JValue.jstr "POL-001"), ("customerName", JValue.jstr "Sarah Thompson"),
         ("incidentDate", JValue.jstr "2024-03-15"), ("incidentType", JValue.jstr "Auto Accident"),
         ("description", JValue.jstr ""), ("location", JValue.jstr "Denver"),
         ("estimatedDamage", JValue.jint 1500)] = .ok (true, none)
    ∧ validate_incident_data
        [("policyId", JValue.jstr "POL-001"), ("customerName", JValue.jstr "Sarah Thompson"),
         ("incidentDate", JValue.jstr "2024-03-15"), ("incidentType", JValue.jstr "Auto Accident"),
         ("description", JValue.jstr ""), ("location", JValue.jstr "Denver"),
         ("estimatedDamage", JValue.jfloat 1500)] = .ok (true, none) := by
  have hfind := find_missing_none d hall
  refine ⟨?_, ?_, rfl, rfl, rfl⟩
  · intro hn
    simp [validate_incident_data, hfind, hdate, strptime_check, hs, hdmg, hn, Bind.bind, Except.bind, Pure.pure, Except.pure]
  · intro hn
    simp [validate_incident_data, hfind, hdate, strptime_check, hs, hdmg, hn, Bind.bind, Except.bind, Pure.pure, Except.pure]

/-- Witness for C7: the damage-type theorem applied to a concrete record whose
`estimatedDamage` is the string `"1500"`. -/
theorem validate_incident_data_damage_check_witness :
    validate_incident_data
      [("policyId", JValue.jstr "POL-001"), ("customerName", JValue.jstr "Sarah Thompson"),
       ("incidentDate", JValue.jstr "2024-03-15"), ("incidentType", JValue.jstr "Auto Accident"),
       ("description", JValue.jstr ""), ("location", JValue.jstr "Denver"),
       ("estimatedDamage", JValue.jstr "1500")] =
    .ok (false, some "estimatedDamage must be a number") :=
  (validate_incident_data_damage_check
    [("policyId", JValue.jstr "POL-001"), ("customerName", JValue.jstr "Sarah Thompson"),
     ("incidentDate", JValue.jstr "2024-03-15"), ("incidentType", JValue.jstr "Auto Accident"),
     ("description", JValue.jstr ""), ("location", JValue.jstr "Denver"),
     ("estimatedDamage", JValue.jstr "1500")] "2024-03-15" (JValue.jstr "1500")
    (by decide) rfl (by decide) rfl).1 rfl

/-- C9: `validate_incident_data` does not mutate its input.  Every operation
the source performs on the record is a read; with the record threaded
explicitly through each of them, the record handed back to the caller is the
record passed in, and the verdict agrees with the direct model — whether the
call returns normally or raises. -/
theorem validate_incident_data_no_mutation (d : List (String × JValue)) :
    validate_incident_data_st d = (validate_incident_data d, d) := by
  unfold validate_incident_data_st dict_contains_st dict_getitem_st
  dsimp only
  cases h1 : dict_contains d "policyId" with
  | false => simp [validate_incident_data, required_fields, List.find?, h1]
  | true =>
  cases h2 : dict_contains d "customerName" with
  | false => simp [validate_incident_data, required_fields, List.find?, h1, h2]
  | true =>
  cases h3 : dict_contains d "incidentDate" with
  | false => simp [validate_incident_data, required_fields, List.find?, h1, h2, h3]
  | true =>
  cases h4 : dict_contains d "incidentType" with
  | false => simp [validate_incident_data, required_fields, List.find?, h1, h2, h3, h4]
  | true =>
  cases h5 : dict_contains d "description" with
  | false => simp [validate_incident_data, required_fields, List.find?, h1, h2, h3, h4, h5]
  | true =>
  cases h6 : dict_contains d "location" with
  | false => simp [validate_incident_data, required_fields, List.find?, h1, h2, h3, h4, h5, h6]
  | true =>
  cases h7 : dict_contains d "estimatedDamage" with
  | false => simp [validate_incident_data, required_fields, List.find?, h1, h2, h3, h4, h5, h6, h7]
  | true =>
  cases hgi : dict_getitem d "incidentDate" with
  | error e =>
    simp [validate_incident_data, required_fields, List.find?, h1, h2, h3, h4, h5, h6, h7,
      hgi, Bind.bind, Except.bind]
  | ok datev =>
  cases hsc : strptime_check datev with
  | error e =>
    cases e <;>
      simp [validate_incident_data, required_fields, List.find?, h1, h2, h3, h4, h5, h6, h7,
        hgi, hsc, Bind.bind, Except.bind, Pure.pure, Except.pure]
  | ok u =>
  cases hgd : dict_getitem d "estimatedDamage" with
  | error e =>
    simp [validate_incident_data, required_fields, List.find?, h1, h2, h3, h4, h5, h6, h7,
      hgi, hsc, hgd, Bind.bind, Except.bind]
  | ok dmg =>
  cases hn : is_number dmg <;>
    simp [validate_incident_data, required_fields, List.find?, h1, h2, h3, h4, h5, h6, h7,
      hgi, hsc, hgd, hn, Bind.bind, Except.bind, Pure.pure, Except.pure]

/-- C1 counterexample: an extractor result without an `error` key whose
`estimatedDamage` is a truthy non-numeric string makes the pipeline raise
(`float("a lot")` raises `ValueError`) instead of returning a populated
record. -/
theorem text_to_incident_ticket_raises_counterexample :
    dict_contains
      [("customerName", JValue.jstr "Sarah Thompson"),
       ("estimatedDamage", JValue.jstr "a lot")] "error" = false
    ∧ text_to_incident_ticket
        [("customerName", JValue.jstr "Sarah Thompson"),
         ("estimatedDamage", JValue.jstr "a lot")] "2024-01-01" = .error .valueError :=
  ⟨rfl, rfl⟩

/-- C1 (amended to inputs `float()` accepts): for an extractor result without
an `error` key whose `estimatedDamage` value converts under `float()` after
the `or 0.0` default, the pipeline returns a record populating all seven
fields, with `policyId` defaulting to `"UNKNOWN"` when null or empty,
`customerName` to `"UNKNOWN"`, `incidentType` to `"unspecified"`,
`description` to `""`, `location` to `"unspecified"`, `estimatedDamage` to
`0.0` when null, and a null `incidentDate` replaced by the current date. -/
theorem text_to_incident_ticket_populates (extracted : List (String × JValue)) (today : String)
    (herr : dict_contains extracted "error" = false) (q : Rat)
    (hq : py_float (py_or (dict_get extracted "estimatedDamage") (JValue.jfloat 0)) = .ok q) :
    text_to_incident_ticket extracted today =
      .ok (JValue.jobj
        [("policyId", py_or (dict_get extracted "policyId") (JValue.jstr "UNKNOWN")),
         ("customerName", py_or (dict_get extracted "customerName") (JValue.jstr "UNKNOWN")),
         ("incidentDate", match dict_get extracted "incidentDate" with
           | JValue.jnull => JValue.jstr today
           | v => v),
         ("incidentType", py_or (dict_get extracted "incidentType") (JValue.jstr "unspecified")),
         ("description", py_or (dict_get extracted "description") (JValue.jstr "")),
         ("location", py_or (dict_get extracted "location") (JValue.jstr "unspecified")),
         ("estimatedDamage", JValue.jfloat q)])
    ∧ ((dict_get extracted "policyId" = JValue.jnull ∨ dict_get extracted "policyId" = JValue.jstr "") →
        py_or (dict_get extracted "policyId") (JValue.jstr "UNKNOWN") = JValue.jstr "UNKNOWN")
    ∧ (dict_get extracted "customerName" = JValue.jnull →
        py_or (dict_get extracted "customerName") (JValue.jstr "UNKNOWN") = JValue.jstr "UNKNOWN")
    ∧ (dict_get extracted "incidentType" = JValue.jnull →
        py_or (dict_get extracted "incidentType") (JValue.jstr "unspecified") = JValue.jstr "unspecified")
    ∧ (dict_get extracted "description" = JValue.jnull →
        py_or (dict_get extracted "description") (JValue.jstr "") = JValue.jstr "")
    ∧ (dict_get extracted "location" = JValue.jnull →
        py_or (dict_get extracted "location") (JValue.jstr "unspecified") = JValue.jstr "unspecified")
    ∧ (dict_get extracted "estimatedDamage" = JValue.jnull → q = 0)
    ∧ (dict_get extracted "incidentDate" = JValue.jnull →
        (match dict_get extracted "incidentDate" with
          | JValue.jnull => JValue.jstr today
          | v => v) = JValue.jstr today) := by
  refine ⟨?_, ?_, ?_, ?_, ?_, ?_, ?_, ?_⟩
  · simp [text_to_incident_ticket, herr, hq, create_incident_payload,
      Bind.bind, Except.bind, Pure.pure, Except.pure]
  · intro h
    rcases h with h | h <;> rw [h] <;> rfl
  · intro h; rw [h]; rfl
  · intro h; rw [h]; rfl
  · intro h; rw [h]; rfl
  · intro h; rw [h]; rfl
  · intro h
    rw [h] at hq
    simp [py_or, py_truthy, py_float] at hq
    exact hq.symm
  · intro h; rw [h]

/-- Witness for C1: the amended pipeline theorem applied to an extractor
result whose fields are all null except `customerName` (spec §8 property 3). -/
theorem text_to_incident_ticket_populates_witness :
    text_to_incident_ticket
      [("policyId", JValue.jnull), ("customerName", JValue.jstr "Sarah Thompson"),
       ("incidentType", JValue.jnull), ("description", JValue.jnull),
       ("location", JValue.jnull), ("estimatedDamage", JValue.jnull),
       ("incidentDate", JValue.jnull)] "2024-01-01" =
    .ok (JValue.jobj
      [("policyId", JValue.jstr "UNKNOWN"),
       ("customerName", JValue.jstr "Sarah Thompson"),
       ("incidentDate", JValue.jstr "2024-01-01"),
       ("incidentType", JValue.jstr "unspecified"),
       ("description", JValue.jstr ""),
       ("location", JValue.jstr "unspecified"),
       ("estimatedDamage", JValue.jfloat 0)]) :=
  (text_to_incident_ticket_populates
    [("policyId", JValue.jnull), ("customerName", JValue.jstr "Sarah Thompson"),
     ("incidentType", JValue.jnull), ("description", JValue.jnull),
     ("location", JValue.jnull), ("estimatedDamage", JValue.jnull),
     ("incidentDate", JValue.jnull)] "2024-01-01" rfl 0 rfl).1

lemma http_error_msg_none_of_lt_400 (r : Response) (h : r.status_code < 400) :
    http_error_msg r = none := by
  unfold http_error_msg
  rw [if_neg (by omega), if_neg (by omega)]

lemma http_error_msg_some_of_err (r : Response) (h4 : 400 ≤ r.status_code)
    (h6 : r.status_code < 600) : ∃ m, http_error_msg r = some m := by
  unfold http_error_msg
  by_cases h5 : r.status_code < 500
  · exact ⟨_, if_pos ⟨h4, h5⟩⟩
  · rw [if_neg (by omega), if_pos (by omega)]
    exact ⟨_, rfl⟩

/-- C3: `post_incident` never raises — its result is always one of the two
structured shapes — and the shape is determined by the request outcome: a 2xx
response yields the success record carrying the status code and the parsed
JSON body (falling back to the raw text body), a timeout yields the
timed-out error record naming the configured timeout, and a connection
failure or an HTTP error status (4xx/5xx, raised by `raise_for_status` and
caught by the `RequestException` handler) yields a `Request failed` error
record. -/
theorem post_incident_result_contract (tmo : Int) (net : JValue → HttpOutcome)
    (p c dt ty de lo ed : JValue) :
    ((∃ sc body, post_incident tmo net p c dt ty de lo ed =
        JValue.jobj
          [("success", JValue.jbool true), ("status_code", JValue.jint sc),
           ("response", body)])
      ∨ (∃ msg, post_incident tmo net p c dt ty de lo ed =
          JValue.jobj [("success", JValue.jbool false), ("error", JValue.jstr msg)]))
    ∧ (∀ r, net (n8n_payload p c dt ty de lo ed) = .response r →
        200 ≤ r.status_code → r.status_code < 300 →
        post_incident tmo net p c dt ty de lo ed =
          JValue.jobj
            [("success", JValue.jbool true), ("status_code", JValue.jint r.status_code),
             ("response", match r.jsonResult with
               | some j => j
               | none => JValue.jstr r.text)])
    ∧ (net (n8n_payload p c dt ty de lo ed) = .timeout →
        post_incident tmo net p c dt ty de lo ed =
          JValue.jobj
            [("success", JValue.jbool false),
             ("error", JValue.jstr ("Request timed out after " ++ toString tmo ++ " seconds"))])
    ∧ (∀ details, net (n8n_payload p c dt ty de lo ed) = .requestError details →
        post_incident tmo net p c dt ty de lo ed =
          JValue.jobj
            [("success", JValue.jbool false),
             ("error", JValue.jstr ("Request failed: " ++ details))])
    ∧ (∀ r, net (n8n_payload p c dt ty de lo ed) = .response r →
        400 ≤ r.status_code → r.status_code < 600 →
        ∃ m, post_incident tmo net p c dt ty de lo ed =
          JValue.jobj
            [("success", JValue.jbool false),
             ("error", JValue.jstr ("Request failed: " ++ m))]) := by
  refine ⟨?_, ?_, ?_, ?_, ?_⟩
  · cases hnet : net (n8n_payload p c dt ty de lo ed) with
    | response r =>
      cases hhem : http_error_msg r with
      | none =>
        exact Or.inl ⟨(r.status_code : Int),
          (match r.jsonResult with
            | some j => j
            | none => JValue.jstr r.text),
          by simp [post_incident, post_incident_attempt, hnet, hhem]⟩
      | some m =>
        exact Or.inr ⟨"Request failed: " ++ m,
          by simp [post_incident, post_incident_attempt, hnet, hhem, reqExcStr]⟩
    | timeout =>
      exact Or.inr ⟨"Request timed out after " ++ toString tmo ++ " seconds",
        by simp [post_incident, post_incident_attempt, hnet]⟩
    | requestError details =>
      exact Or.inr ⟨"Request failed: " ++ details,
        by simp [post_incident, post_incident_attempt, hnet, reqExcStr]⟩
  · intro r hr h200 h300
    simp [post_incident, post_incident_attempt, hr,
      http_error_msg_none_of_lt_400 r (by omega)]
  · intro h
    simp [post_incident, post_incident_attempt, h]
  · intro details h
    simp [post_incident, post_incident_attempt, h, reqExcStr]
  · intro r hr h4 h6
    obtain ⟨m, hm⟩ := http_error_msg_some_of_err r h4 h6
    exact ⟨m, by simp [post_incident, post_incident_attempt, hr, hm, reqExcStr]⟩

/-- Witness for C3: the contract applied to a network oracle that times out,
with the default 30-second timeout. -/
theorem post_incident_result_contract_witness :
    post_incident 30 (fun _ => HttpOutcome.timeout) (JValue.jstr "POL-001")
      (JValue.jstr "Sarah Thompson") (JValue.jstr "2024-03-15")
      (JValue.jstr "Auto Accident") (JValue.jstr "rear-ended") (JValue.jstr "Denver")
      (JValue.jfloat 1500) =
    JValue.jobj
      [("success", JValue.jbool false),
       ("error", JValue.jstr ("Request timed out after " ++ toString (30 : Int) ++ " seconds"))] :=
  (post_incident_result_contract 30 (fun _ => HttpOutcome.timeout) (JValue.jstr "POL-001")
    (JValue.jstr "Sarah Thompson") (JValue.jstr "2024-03-15") (JValue.jstr "Auto Accident")
    (JValue.jstr "rear-ended") (JValue.jstr "Denver") (JValue.jfloat 1500)).2.2.1 rfl

/-- C8: on a record holding all seven camel-case keys, the convenience
overload `post_incident_from_dict` returns exactly the discrete-argument
`post_incident` call on the record's seven values, in the same field order. -/
theorem post_incident_from_dict_equiv (tmo : Int) (net : JValue → HttpOutcome)
    (d : List (String × JValue))
    (hall : ∀ f ∈ required_fields, dict_contains d f = true) :
    post_incident_from_dict tmo net d =
      .ok (post_incident tmo net (dict_get d "policyId") (dict_get d "customerName")
        (dict_get d "incidentDate") (dict_get d "incidentType") (dict_get d "description")
        (dict_get d "location") (dict_get d "estimatedDamage")) := by
  obtain ⟨v1, h1⟩ := getitem_of_contains d "policyId" (hall _ (by simp [required_fields]))
  obtain ⟨v2, h2⟩ := getitem_of_contains d "customerName" (hall _ (by simp [required_fields]))
  obtain ⟨v3, h3⟩ := getitem_of_contains d "incidentDate" (hall _ (by simp [required_fields]))
  obtain ⟨v4, h4⟩ := getitem_of_contains d "incidentType" (hall _ (by simp [required_fields]))
  obtain ⟨v5, h5⟩ := getitem_of_contains d "description" (hall _ (by simp [required_fields]))
  obtain ⟨v6, h6⟩ := getitem_of_contains d "location" (hall _ (by simp [required_fields]))
  obtain ⟨v7, h7⟩ := getitem_of_contains d "estimatedDamage" (hall _ (by simp [required_fields]))
  rw [dict_get_eq_of_getitem d _ _ h1, dict_get_eq_of_getitem d _ _ h2,
    dict_get_eq_of_getitem d _ _ h3, dict_get_eq_of_getitem d _ _ h4,
    dict_get_eq_of_getitem d _ _ h5, dict_get_eq_of_getitem d _ _ h6,
    dict_get_eq_of_getitem d _ _ h7]
  simp [post_incident_from_dict, h1, h2, h3, h4, h5, h6, h7,
    Bind.bind, Except.bind, Pure.pure, Except.pure]

/-- Witness for C8: the overload equivalence applied to a concrete seven-key
record and an oracle that answers 200 with body text `ok`. -/
theorem post_incident_from_dict_equiv_witness :
    post_incident_from_dict 30
      (fun _ => HttpOutcome.response ⟨200, none, "ok", "OK", "https://n8n.example/webhook"⟩)
      [("policyId", JValue.jstr "POL-001"), ("customerName", JValue.jstr "Sarah Thompson"),
       ("incidentDate", JValue.jstr "2024-03-15"), ("incidentType", JValue.jstr "Auto Accident"),
       ("description", JValue.jstr "rear-ended"), ("location", JValue.jstr "Denver"),
       ("estimatedDamage", JValue.jfloat 1500)] =
    .ok (post_incident 30
      (fun _ => HttpOutcome.response ⟨200, none, "ok", "OK", "https://n8n.example/webhook"⟩)
      (JValue.jstr "POL-001") (JValue.jstr "Sarah Thompson") (JValue.jstr "2024-03-15")
      (JValue.jstr "Auto Accident") (JValue.jstr "rear-ended") (JValue.jstr "Denver")
      (JValue.jfloat 1500)) :=
  post_incident_from_dict_equiv 30
    (fun _ => HttpOutcome.response ⟨200, none, "ok", "OK", "https://n8n.example/webhook"⟩)
    [("policyId", JValue.jstr "POL-001"), ("customerName", JValue.jstr "Sarah Thompson"),
     ("incidentDate", JValue.jstr "2024-03-15"), ("incidentType", JValue.jstr "Auto Accident"),
     ("description", JValue.jstr "rear-ended"), ("location", JValue.jstr "Denver"),
     ("estimatedDamage", JValue.jfloat 1500)]
    (by decide)

/-- C10: a record missing one of the seven keys makes the convenience
overload raise `KeyError` for the first missing key (in keyword-argument
order, the same order as `required_fields`), whatever the network oracle
would do — no call is made; `validate_incident_data` on the same record
instead reports the missing field. -/
theorem post_incident_from_dict_keyerror (tmo : Int) (net : JValue → HttpOutcome)
    (d : List (String × JValue)) (f : String)
    (h : required_fields.find? (fun g => !dict_contains d g) = some f) :
    post_incident_from_dict tmo net d = .error (.keyError f)
    ∧ validate_incident_data d = .ok (false, some ("Missing required field: " ++ f)) := by
  refine ⟨?_, validate_incident_data_missing d f h⟩
  cases h1 : dict_contains d "policyId" with
  | false =>
    simp [required_fields, List.find?, h1] at h
    subst h
    simp [post_incident_from_dict, getitem_of_not_contains d _ h1, Bind.bind, Except.bind]
  | true =>
  obtain ⟨v1, hv1⟩ := getitem_of_contains d "policyId" h1
  cases h2 : dict_contains d "customerName" with
  | false =>
    simp [required_fields, List.find?, h1, h2] at h
    subst h
    simp [post_incident_from_dict, hv1, getitem_of_not_contains d _ h2, Bind.bind, Except.bind]
  | true =>
  obtain ⟨v2, hv2⟩ := getitem_of_contains d "customerName" h2
  cases h3 : dict_contains d "incidentDate" with
  | false =>
    simp [required_fields, List.find?, h1, h2, h3] at h
    subst h
    simp [post_incident_from_dict, hv1, hv2, getitem_of_not_contains d _ h3,
      Bind.bind, Except.bind]
  | true =>
  obtain ⟨v3, hv3⟩ := getitem_of_contains d "incidentDate" h3
  cases h4 : dict_contains d "incidentType" with
  | false =>
    simp [required_fields, List.find?, h1, h2, h3, h4] at h
    subst h
    simp [post_incident_from_dict, hv1, hv2, hv3, getitem_of_not_contains d _ h4,
      Bind.bind, Except.bind]
  | true =>
  obtain ⟨v4, hv4⟩ := getitem_of_contains d "incidentType" h4
  cases h5 : dict_contains d "description" with
  | false =>
    simp [required_fields, List.find?, h1, h2, h3, h4, h5] at h
    subst h
    simp [post_incident_from_dict, hv1, hv2, hv3, hv4, getitem_of_not_contains d _ h5,
      Bind.bind, Except.bind]
  | true =>
  obtain ⟨v5, hv5⟩ := getitem_of_contains d "description" h5
  cases h6 : dict_contains d "location" with
  | false =>
    simp [required_fields, List.find?, h1, h2, h3, h4, h5, h6] at h
    subst h
    simp [post_incident_from_dict, hv1, hv2, hv3, hv4, hv5, getitem_of_not_contains d _ h6,
      Bind.bind, Except.bind]
  | true =>
  obtain ⟨v6, hv6⟩ := getitem_of_contains d "location" h6
  cases h7 : dict_contains d "estimatedDamage" with
  | false =>
    simp [required_fields, List.find?, h1, h2, h3, h4, h5, h6, h7] at h
    subst h
    simp [post_incident_from_dict, hv1, hv2, hv3, hv4, hv5, hv6,
      getitem_of_not_contains d _ h7, Bind.bind, Except.bind]
  | true =>
    simp [required_fields, List.find?, h1, h2, h3, h4, h5, h6, h7] at h

/-- Witness for C10: the overload applied to a record holding only `policyId`
raises `KeyError` on `customerName`, the first missing key. -/
theorem post_incident_from_dict_keyerror_witness :
    post_incident_from_dict 30 (fun _ => HttpOutcome.timeout)
      [("policyId", JValue.jstr "POL-001")] = .error (.keyError "customerName")
    ∧ validate_incident_data [("policyId", JValue.jstr "POL-001")] =
        .ok (false, some ("Missing required field: " ++ "customerName")) :=
  post_incident_from_dict_keyerror 30 (fun _ => HttpOutcome.timeout)
    [("policyId", JValue.jstr "POL-001")] "customerName" rfl

example : strptime_ymd_ok "2024-03-15" = true := by decide
example : strptime_ymd_ok "13-13-2024" = false := by decide
example : strptime_ymd_ok "2024-02-30" = false := by decide
example : strptime_ymd_ok "2024-2-29" = true := by decide
example : strptime_ymd_ok "2023-02-29" = false := by decide
example : py_float (JValue.jstr "1500") = .ok 1500 := rfl
example : py_float (JValue.jstr "a lot") = .error .valueError := rfl
example : (py_float (JValue.jstr "-3.5")).isOk = true := rfl
